import Mathlib

/-!
# Verification of the gfx device layer (`src/device/lib.rs`)

Shallow embedding of the device/resource/mapping core of the gfx HAL.

Modelling conventions:
* Rust element types `T` are represented by their in-memory byte image: a value
  of a type of size `k` is a `List UInt8` of length `k` (the well-formedness
  `e.length = k` appears as a hypothesis where it matters).  Where a claim does
  not depend on the byte representation, a typed memory `List α` is used
  directly.
* `usize` values are `Nat`; Rust's `/` on `usize`, which fails fatally on a
  zero divisor, is embedded as an `Option Nat` that is `none` exactly when the
  divisor is zero.
* A fatal failure (Rust panic) is `none` of an `Option` result.
* Stateful device operations pass the backend state `σ` explicitly; a trait
  object implementing `Device` becomes a structure of functions over `σ`.
* Rust's scope-exit destructor call is embedded as an explicit `drop` function
  translated from the `Drop` impl body; its effect on the backend is observed
  through an event trace.
-/

/-- Specifies the access allowed to a buffer mapping (`MapAccess`). -/
inductive MapAccess where
  /-- Only allow reads. -/
  | Readable
  /-- Only allow writes. -/
  | Writable
  /-- Allow full access. -/
  | RW
deriving DecidableEq, Repr

/-- A hint as to how this buffer will be used (`BufferUsage`). -/
inductive BufferUsage where
  /-- Once uploaded, this buffer will rarely change, but will be read from often. -/
  | Static
  /-- This buffer will be updated "frequently". -/
  | Dynamic
  /-- This buffer always or almost always be updated after each read. -/
  | Stream
deriving DecidableEq, Repr

/-- An information block that is immutable and associated with each buffer
(`BufferInfo`): usage hint plus size in bytes. -/
structure BufferInfo where
  usage : BufferUsage
  size : Nat
deriving DecidableEq, Repr

/-- Modelled from the spec: the `handle` module is outside this crate's visible
source; per the spec a raw buffer handle is an opaque backend token plus the
immutable `BufferInfo` (the test `mock_buffer` constructs exactly this:
`handle::RawBuffer::new((), BufferInfo { .. })`).  `B` is the backend's
`Resources::Buffer` token type. -/
structure RawBuffer (B : Type) where
  res : B
  info : BufferInfo
deriving DecidableEq, Repr

/-- Modelled from the spec: the typed handle `handle::Buffer<R, T>` is the
untyped token plus metadata plus a phantom element-type tag `T`; the tag
stores no data, so the embedding keeps only the raw part (the element size of
`T` is passed explicitly where the Rust code uses `mem::size_of::<T>()`). -/
structure Buffer (B : Type) where
  raw : RawBuffer B
deriving DecidableEq, Repr

/-- Modelled from the spec: `cast` on an untyped handle re-tags it with an
element type; only the phantom tag changes, the raw token and metadata are
kept. -/
def RawBuffer.cast (b : RawBuffer B) : Buffer B :=
  { raw := b }

/-- Modelled from the spec: `cast` from a typed handle back to the untyped
handle `Buffer<R, ()>` forgets the phantom tag. -/
def Buffer.cast (b : Buffer B) : RawBuffer B :=
  b.raw

/-- Modelled from the spec: the handle's element count is derived from the
byte size as `size / sizeof(T)`; Rust's division fails fatally when the
divisor is zero (attested in-source by `test_buffer_zero_len`, which is
`should_fail`), embedded as `none`.  `elemSize` stands for
`mem::size_of::<T>()`. -/
def Buffer.len (b : Buffer B) (elemSize : Nat) : Option Nat :=
  if elemSize = 0 then none else some (b.raw.info.size / elemSize)

/-- The mock handle constructor from the in-source test module
(`mock_buffer<T>(len)`): a unit resource token with byte size
`mem::size_of::<T>() * len`. -/
def mock_buffer (elemSize len : Nat) : Buffer Unit :=
  { raw := { res := (), info := { usage := BufferUsage.Static, size := elemSize * len } } }

example : (mock_buffer 1 8).len 1 = some 8 := by decide
example : (mock_buffer 2 8).len 2 = some 8 := by decide
example : (mock_buffer 0 0).len 0 = none := by decide

/-! ## Raw mapping contract (`RawMapping`) and typed mapping wrappers -/

/-- `RawMapping::set<T>(index, val)`: set the element at `index` to `val`.
Not bounds-checked in the source (out-of-range use is outside the contract;
the embedding's `List.set` is then a no-op, but every verified caller
establishes the bound first). -/
def RawMapping.set (mem : List α) (index : Nat) (val : α) : List α :=
  mem.set index val

/-- `RawMapping::to_slice<T>(len)`: returns a slice of the specified length.
Not bounds-checked in the source; the caller guarantees `len` does not exceed
the mapped region's element capacity. -/
def RawMapping.to_slice (mem : List α) (len : Nat) : List α :=
  mem.take len

/-- `RawMapping::to_mut_slice<T>(len)`: returns a mutable slice of the
specified length; same contract as `to_slice`. -/
def RawMapping.to_mut_slice (mem : List α) (len : Nat) : List α :=
  mem.take len

/-- A handle to a readable map (`ReadableMapping<'a, T, D>`): the backend's
raw mapper token and the fixed element count.  The exclusive device borrow
and the phantom element tag carry no data and are represented by the explicit
state threading of the device operations. -/
structure ReadableMapping (M : Type) where
  raw : M
  len : Nat
deriving DecidableEq, Repr

/-- A handle to a writable map (`WritableMapping<'a, T, D>`), which only
allows setting elements. -/
structure WritableMapping (M : Type) where
  raw : M
  len : Nat
deriving DecidableEq, Repr

/-- A handle to a complete readable/writable map (`RWMapping<'a, T, D>`). -/
structure RWMapping (M : Type) where
  raw : M
  len : Nat
deriving DecidableEq, Repr

/-- `Deref for ReadableMapping`: `self.raw.to_slice(self.len)`.  `mem` is the
typed content of the mapped region denoted by the wrapper's raw token. -/
def ReadableMapping.deref (m : ReadableMapping M) (mem : List α) : List α :=
  RawMapping.to_slice mem m.len

/-- `WritableMapping::set(idx, val)`: fails fatally (`none`) when
`idx >= self.len`, otherwise performs the unchecked raw write
`self.raw.set(idx, val)`.  `mem` is the typed content of the mapped region. -/
def WritableMapping.set (m : WritableMapping M) (mem : List α) (idx : Nat) (val : α) :
    Option (List α) :=
  if m.len ≤ idx then none
  else some (RawMapping.set mem idx val)

/-- `Deref for RWMapping`: `self.raw.to_slice(self.len)`. -/
def RWMapping.deref (m : RWMapping M) (mem : List α) : List α :=
  RawMapping.to_slice mem m.len

/-- `DerefMut for RWMapping`: `self.raw.to_mut_slice(self.len)`. -/
def RWMapping.deref_mut (m : RWMapping M) (mem : List α) : List α :=
  RawMapping.to_mut_slice mem m.len

/-! ## Byte-reinterpretation utility (`as_byte_slice`) -/

/-- `as_byte_slice<T>(slice)`: treat a typed slice as `&[u8]`.  With elements
embedded as their in-memory byte images, the zero-copy byte view is the
concatenation of the images; its length is `mem::size_of::<T>() * slice.len()`
whenever every image has length `sizeof(T)`. -/
def as_byte_slice (slice : List (List UInt8)) : List UInt8 :=
  slice.flatten

/-! ## Device contract (`Device` trait)

Required (backend-implemented) methods become structure fields over an
explicit backend state `σ`; default methods of the trait become functions of
the structure, translated from the default bodies in the source.  `B` is the
`Resources::Buffer` token type and `M` the `Device::Mapper` token type.
The typed mapping entry points `map_buffer_readable/writable/rw` carry no
default body in the source (backends implement them), so they are fields;
their result is an `Option` because the length derivation they are documented
to perform can fail fatally.  Methods not touched by any verified property
(shader/texture/submit/deletion) are omitted from the embedding. -/
structure Device (σ B M : Type) where
  create_buffer_raw : σ → Nat → BufferUsage → σ × RawBuffer B
  create_buffer_static_raw : σ → List UInt8 → σ × RawBuffer B
  update_buffer_raw : σ → RawBuffer B → List UInt8 → Nat → σ
  map_buffer_raw : σ → RawBuffer B → MapAccess → σ × M
  unmap_buffer_raw : σ → M → σ
  map_buffer_readable : Nat → σ → Buffer B → Option (σ × ReadableMapping M)
  map_buffer_writable : Nat → σ → Buffer B → Option (σ × WritableMapping M)
  map_buffer_rw : Nat → σ → Buffer B → Option (σ × RWMapping M)

/-- Default method `Device::create_buffer<T>(num, usage)`:
`self.create_buffer_raw(num * mem::size_of::<T>(), usage).cast()`.
`elemSize` stands for `mem::size_of::<T>()`. -/
def Device.create_buffer (d : Device σ B M) (elemSize : Nat) (s : σ) (num : Nat)
    (usage : BufferUsage) : σ × Buffer B :=
  let p := d.create_buffer_raw s (num * elemSize) usage
  (p.1, p.2.cast)

/-- Default method `Device::create_buffer_static<T>(data)`:
`self.create_buffer_static_raw(as_byte_slice(data)).cast()`. -/
def Device.create_buffer_static (d : Device σ B M) (s : σ) (data : List (List UInt8)) :
    σ × Buffer B :=
  let p := d.create_buffer_static_raw s (as_byte_slice data)
  (p.1, p.2.cast)

/-- Default method `Device::update_buffer<T>(buf, data, offset_elements)`:
`self.update_buffer_raw(buf.cast(), as_byte_slice(data),
mem::size_of::<T>() * offset_elements)`. -/
def Device.update_buffer (d : Device σ B M) (elemSize : Nat) (s : σ) (buf : Buffer B)
    (data : List (List UInt8)) (offset_elements : Nat) : σ :=
  d.update_buffer_raw s buf.cast (as_byte_slice data) (elemSize * offset_elements)

/-- `Drop for ReadableMapping`: `self.device.unmap_buffer_raw(self.raw.clone())`. -/
def ReadableMapping.drop (d : Device σ B M) (m : ReadableMapping M) (s : σ) : σ :=
  d.unmap_buffer_raw s m.raw

/-- `Drop for WritableMapping`: `self.device.unmap_buffer_raw(self.raw.clone())`. -/
def WritableMapping.drop (d : Device σ B M) (m : WritableMapping M) (s : σ) : σ :=
  d.unmap_buffer_raw s m.raw

/-- `Drop for RWMapping`: `self.device.unmap_buffer_raw(self.raw.clone())`. -/
def RWMapping.drop (d : Device σ B M) (m : RWMapping M) (s : σ) : σ :=
  d.unmap_buffer_raw s m.raw

/-! ## MapFactory blanket implementation

`impl<D: Device> MapFactory for D` constructs the wrappers from a given raw
token and length; in the source each constructor additionally stores the
exclusive `&mut self` borrow, carried here by the state threading. -/

/-- `MapFactory::map_readable(map, length)` from the blanket implementation:
`ReadableMapping { raw: map, len: length, device: self, .. }`. -/
def MapFactory.map_readable (map : M) (length : Nat) : ReadableMapping M :=
  { raw := map, len := length }

/-- `MapFactory::map_writable(map, length)` from the blanket implementation. -/
def MapFactory.map_writable (map : M) (length : Nat) : WritableMapping M :=
  { raw := map, len := length }

/-- `MapFactory::map_read_write(map, length)` from the blanket implementation. -/
def MapFactory.map_read_write (map : M) (length : Nat) : RWMapping M :=
  { raw := map, len := length }

/-! ## Observing backend calls

To state "the drop handler invokes `unmap_buffer_raw` exactly once", the
backend-facing raw calls are made observable: `Device.traced` lifts any
device to one whose state also records the sequence of raw calls issued.
The typed mapping fields are backend methods whose internals are opaque at
this boundary, so they are threaded through unchanged. -/

/-- One raw call across the device/backend boundary. -/
inductive DevCall (B M : Type) where
  | createBufferRaw (size : Nat) (usage : BufferUsage)
  | createBufferStaticRaw (data : List UInt8)
  | updateBufferRaw (buf : RawBuffer B) (data : List UInt8) (offset_bytes : Nat)
  | mapBufferRaw (buf : RawBuffer B) (access : MapAccess)
  | unmapBufferRaw (map : M)
deriving DecidableEq, Repr

/-- Whether a recorded call is an `unmap_buffer_raw` invocation. -/
def DevCall.isUnmap : DevCall B M → Bool
  | (DevCall.unmapBufferRaw _) => true
  | _ => false

/-- The number of `unmap_buffer_raw` invocations in a recorded call trace. -/
def unmapCount (t : List (DevCall B M)) : Nat :=
  (t.filter DevCall.isUnmap).length

/-- Lift a device so that its state also records the trace of raw calls. -/
def Device.traced (d : Device σ B M) : Device (σ × List (DevCall B M)) B M where
  create_buffer_raw := fun st size usage =>
    let p := d.create_buffer_raw st.1 size usage
    ((p.1, st.2 ++ [DevCall.createBufferRaw size usage]), p.2)
  create_buffer_static_raw := fun st data =>
    let p := d.create_buffer_static_raw st.1 data
    ((p.1, st.2 ++ [DevCall.createBufferStaticRaw data]), p.2)
  update_buffer_raw := fun st buf data off =>
    (d.update_buffer_raw st.1 buf data off,
     st.2 ++ [DevCall.updateBufferRaw buf data off])
  map_buffer_raw := fun st buf access =>
    let p := d.map_buffer_raw st.1 buf access
    ((p.1, st.2 ++ [DevCall.mapBufferRaw buf access]), p.2)
  unmap_buffer_raw := fun st map =>
    (d.unmap_buffer_raw st.1 map, st.2 ++ [DevCall.unmapBufferRaw map])
  map_buffer_readable := fun k st buf =>
    (d.map_buffer_readable k st.1 buf).map (fun p => ((p.1, st.2), p.2))
  map_buffer_writable := fun k st buf =>
    (d.map_buffer_writable k st.1 buf).map (fun p => ((p.1, st.2), p.2))
  map_buffer_rw := fun k st buf =>
    (d.map_buffer_rw k st.1 buf).map (fun p => ((p.1, st.2), p.2))

/-! ## Spec-side construction of the typed mapping entry points -/

/-- Reinterpret a mapped byte region as `len` elements of size `k`: element
`i` occupies bytes `[i*k, i*k + k)`.  This is the mock mapper's
`RawMapping::to_slice` instantiated at an element type of size `k`. -/
def to_slice_bytes (k : Nat) (mem : List UInt8) (len : Nat) : List (List UInt8) :=
  (List.range len).map (fun i => (mem.drop (i * k)).take k)

/-- Modelled from the spec: the body `map_buffer_readable` would have were it
a default method — "wrap the raw token in the matching typed wrapper with the
handle's element count as `len`" via the `MapFactory` constructor; `none`
when the element-count derivation fails fatally. -/
def defaultMapReadable (d : Device σ B M) (k : Nat) (s : σ) (buf : Buffer B) :
    Option (σ × ReadableMapping M) :=
  (buf.len k).map (fun n =>
    let p := d.map_buffer_raw s buf.cast MapAccess.Readable
    (p.1, MapFactory.map_readable p.2 n))

/-- Modelled from the spec: the would-be default body of
`map_buffer_writable`. -/
def defaultMapWritable (d : Device σ B M) (k : Nat) (s : σ) (buf : Buffer B) :
    Option (σ × WritableMapping M) :=
  (buf.len k).map (fun n =>
    let p := d.map_buffer_raw s buf.cast MapAccess.Writable
    (p.1, MapFactory.map_writable p.2 n))

/-- Modelled from the spec: the would-be default body of `map_buffer_rw`. -/
def defaultMapRW (d : Device σ B M) (k : Nat) (s : σ) (buf : Buffer B) :
    Option (σ × RWMapping M) :=
  (buf.len k).map (fun n =>
    let p := d.map_buffer_raw s buf.cast MapAccess.RW
    (p.1, MapFactory.map_read_write p.2 n))

/-! ## A mock in-memory backend

Modelled from the spec: backends are outside this crate's visible source; the
spec's testable properties are checked against a reference backend that
stores each buffer's bytes verbatim.  State: the list of allocated buffers'
contents; buffer token: index into that list; mapper token: the mapped
buffer's bytes.  Its typed mapping methods follow the spec's words (wrap the
raw token with the handle's element count), as a conforming backend would. -/

/-- The mock backend's state: contents of each allocated buffer. -/
abbrev MockState : Type := List (List UInt8)

/-- The reference in-memory backend. -/
def mockDevice : Device MockState Nat (List UInt8) where
  create_buffer_raw := fun s size usage =>
    (s ++ [List.replicate size 0],
     { res := s.length, info := { usage := usage, size := size } })
  create_buffer_static_raw := fun s data =>
    (s ++ [data],
     { res := s.length, info := { usage := BufferUsage.Static, size := data.length } })
  update_buffer_raw := fun s buf data off =>
    let old := s.getD buf.res []
    s.set buf.res (old.take off ++ data ++ old.drop (off + data.length))
  map_buffer_raw := fun s buf _ => (s, s.getD buf.res [])
  unmap_buffer_raw := fun s _ => s
  map_buffer_readable := fun k s buf =>
    (buf.len k).map (fun n =>
      (s, MapFactory.map_readable (s.getD buf.raw.res []) n))
  map_buffer_writable := fun k s buf =>
    (buf.len k).map (fun n =>
      (s, MapFactory.map_writable (s.getD buf.raw.res []) n))
  map_buffer_rw := fun k s buf =>
    (buf.len k).map (fun n =>
      (s, MapFactory.map_read_write (s.getD buf.raw.res []) n))

/-- A deviant but trait-legal backend: identical to `mockDevice` except that
its `map_buffer_readable` ignores the raw mapper token and the handle's
element count.  The `Device` trait does not constrain the body of this
required method, so this is a conforming implementor. -/
def oddDevice : Device MockState Nat (List UInt8) :=
  { mockDevice with
    map_buffer_readable := fun _ s _ =>
      some (s, { raw := [], len := 0 }) }

/-- The spec's round-trip pipeline over the reference backend:
`create_buffer_static(data)` followed by opening a readable mapping over the
resulting handle and dereferencing it.  `k` is the element size of `T`. -/
def roundTrip (k : Nat) (data : List (List UInt8)) : Option (List (List UInt8)) :=
  let p := mockDevice.create_buffer_static [] data
  match mockDevice.map_buffer_readable k p.1 p.2 with
  | none => none
  | some q => some (to_slice_bytes k q.2.raw q.2.len)

/-! ## Helper lemmas -/

/-- Counting `unmap` events: appending one `unmap_buffer_raw` record raises
the count by one. -/
theorem unmapCount_append_unmap (t : List (DevCall B M)) (m : M) :
    unmapCount (t ++ [DevCall.unmapBufferRaw m]) = unmapCount t + 1 := by
  simp [unmapCount, List.filter_append, DevCall.isUnmap]

/-- When every image in `s` has length `k`, the concatenation has length
`s.length * k`. -/
theorem flatten_length_of_forall (k : Nat) :
    ∀ (s : List (List UInt8)), (∀ e ∈ s, e.length = k) →
      s.flatten.length = s.length * k := by
  intro s
  induction s with
  | nil => intro _; simp
  | cons e s ih =>
    intro h
    have he : e.length = k := h e (List.mem_cons_self e s)
    have hs : ∀ x ∈ s, x.length = k := fun x hx => h x (List.mem_cons_of_mem e hx)
    simp [List.flatten_cons, he, ih hs, Nat.succ_mul, Nat.add_comm]

/-- When every image in `s` has length `k`, bytes `[i*k, i*k + k)` of the
concatenation are exactly the `i`-th image. -/
theorem flatten_drop_take (k : Nat) :
    ∀ (s : List (List UInt8)), (∀ e ∈ s, e.length = k) →
      ∀ i (hi : i < s.length), (s.flatten.drop (i * k)).take k = s.get ⟨i, hi⟩ := by
  intro s
  induction s with
  | nil => intro _ i hi; exact absurd hi (by simp)
  | cons e s ih =>
    intro h i hi
    have he : e.length = k := h e (List.mem_cons_self e s)
    have hs : ∀ x ∈ s, x.length = k := fun x hx => h x (List.mem_cons_of_mem e hx)
    cases i with
    | zero =>
      simp [List.flatten_cons, List.take_left' he]
    | succ i =>
      have hi' : i < s.length := Nat.lt_of_succ_lt_succ hi
      have hdrop : ((e :: s).flatten).drop ((i + 1) * k) = s.flatten.drop (i * k) := by
        have : (i + 1) * k = e.length + i * k := by
          rw [he]; ring
        rw [List.flatten_cons, this, List.drop_append]
      rw [hdrop]
      simpa using ih hs i hi'

/-! ## Claim theorems -/

/-- C1: dropping a `ReadableMapping`, `WritableMapping` or `RWMapping`
invokes the device's `unmap_buffer_raw` with the session's stored raw mapper
token exactly once (the recorded call trace grows by exactly that one call),
and dropping two sessions in sequence invokes it exactly twice — never zero,
never more than once per session. -/
theorem mapping_drop_unmaps_once (d : Device σ B M) (s : σ) (t : List (DevCall B M))
    (mr : ReadableMapping M) (mw : WritableMapping M) (mrw : RWMapping M) :
    (ReadableMapping.drop d.traced mr (s, t)).2 = t ++ [DevCall.unmapBufferRaw mr.raw]
    ∧ (WritableMapping.drop d.traced mw (s, t)).2 = t ++ [DevCall.unmapBufferRaw mw.raw]
    ∧ (RWMapping.drop d.traced mrw (s, t)).2 = t ++ [DevCall.unmapBufferRaw mrw.raw]
    ∧ (ReadableMapping.drop d.traced mr (WritableMapping.drop d.traced mw (s, t))).2
        = t ++ [DevCall.unmapBufferRaw mw.raw, DevCall.unmapBufferRaw mr.raw]
    ∧ unmapCount (ReadableMapping.drop d.traced mr (s, t)).2 = unmapCount t + 1
    ∧ unmapCount
        (ReadableMapping.drop d.traced mr (WritableMapping.drop d.traced mw (s, t))).2
        = unmapCount t + 2 := by
  refine ⟨rfl, rfl, rfl, by simp [ReadableMapping.drop, WritableMapping.drop, Device.traced],
    unmapCount_append_unmap t mr.raw, ?_⟩
  show unmapCount ((t ++ [DevCall.unmapBufferRaw mw.raw]) ++ [DevCall.unmapBufferRaw mr.raw])
    = unmapCount t + 2
  rw [unmapCount_append_unmap, unmapCount_append_unmap]

/-- C2: `WritableMapping::set(idx, val)` fails fatally exactly when
`idx >= len`; in that case no write reaches the raw mapping, and for every
in-range index it performs exactly the raw write of `val` at `idx`. -/
theorem writableMapping_set_spec (m : WritableMapping M) (mem : List α) (idx : Nat) (val : α) :
    (m.set mem idx val = none ↔ m.len ≤ idx)
    ∧ (idx < m.len → m.set mem idx val = some (RawMapping.set mem idx val)) := by
  by_cases h : m.len ≤ idx
  · simp [WritableMapping.set, h]
  · simp [WritableMapping.set, h]

/-- C2 witness: with `len = 2`, index `1` is written in place and index `5`
fails fatally. -/
theorem writableMapping_set_spec_witness :
    ((1 : Nat) < 2
      ∧ WritableMapping.set (M := Unit) ⟨(), 2⟩ [10, 20, 30] 1 (99 : Nat)
          = some [10, 99, 30])
    ∧ WritableMapping.set (M := Unit) ⟨(), 2⟩ [10, 20, 30] 5 (99 : Nat) = none := by
  refine ⟨⟨by decide, ?_⟩, ?_⟩
  · have h := (writableMapping_set_spec (M := Unit) ⟨(), 2⟩ [10, 20, 30] 1 (99 : Nat)).2
      (by decide)
    simpa [RawMapping.set] using h
  · exact (writableMapping_set_spec (M := Unit) ⟨(), 2⟩ [10, 20, 30] 5 (99 : Nat)).1.2
      (by decide)

/-- C9: querying the element length of a zero-byte buffer handle whose
element type is zero-sized fails fatally (`none`), rather than returning an
arbitrary length. -/
theorem buffer_len_zst_fails (b : Buffer B) (h : b.raw.info.size = 0) :
    b.len 0 = none := by
  simp [Buffer.len]

/-- C9 witness: the in-source test's `mock_buffer::<()>(0)` — a zero-byte
handle over a zero-sized element type — has no element length
(`test_buffer_zero_len` expects exactly this failure). -/
theorem buffer_len_zst_fails_witness :
    (mock_buffer 0 0).raw.info.size = 0 ∧ (mock_buffer 0 0).len 0 = none :=
  ⟨rfl, buffer_len_zst_fails (mock_buffer 0 0) rfl⟩

/-- C3 counterexample: the claim quantifies over every element type `T`, but
for a zero-sized `T` (here `elemSize = 0`, as for Rust's `()`) and `n = 0`
the typed buffer created by `create_buffer` does not report length `0` — the
length derivation fails fatally, exactly as `test_buffer_zero_len` expects. -/
theorem create_buffer_len_zst_cex :
    ((Device.create_buffer mockDevice 0 [] 0 BufferUsage.Static).2).len 0 ≠ some 0 := by
  decide

/-- C3 (amended to element types of positive size): `create_buffer` calls
`create_buffer_raw` with `n * sizeof(T)` bytes and casts the result to a
typed handle; provided the backend records the requested byte size in the
returned handle and `sizeof(T) > 0`, the typed buffer created for `n`
elements reports length `n` (in particular length `0` when `n = 0`). -/
theorem create_buffer_len (d : Device σ B M) (k : Nat) (s : σ) (n : Nat)
    (u : BufferUsage) (hk : k ≠ 0)
    (hsize : ((d.create_buffer_raw s (n * k) u).2).info.size = n * k) :
    Device.create_buffer d k s n u
      = (let p := d.create_buffer_raw s (n * k) u
         (p.1, p.2.cast))
    ∧ ((Device.create_buffer d k s n u).2).len k = some n := by
  refine ⟨rfl, ?_⟩
  simp [Device.create_buffer, Buffer.len, RawBuffer.cast, hk, hsize,
    Nat.mul_div_cancel n (Nat.pos_of_ne_zero hk)]

/-- C3 witness: on the reference backend, a buffer for 3 elements of size 2
reports length 3, and one for 0 elements reports length 0. -/
theorem create_buffer_len_witness :
    ((2 : Nat) ≠ 0
      ∧ ((Device.create_buffer mockDevice 2 [] 3 BufferUsage.Static).2).len 2 = some 3)
    ∧ ((Device.create_buffer mockDevice 2 [] 0 BufferUsage.Static).2).len 2 = some 0 :=
  ⟨⟨by decide,
    (create_buffer_len mockDevice 2 [] 3 BufferUsage.Static (by decide) (by decide)).2⟩,
   (create_buffer_len mockDevice 2 [] 0 BufferUsage.Static (by decide) (by decide)).2⟩

/-- C10: for a zero-sized element type (`elemSize = 0`) `create_buffer`
requests a raw buffer of `0` bytes for every count `n`, its entire result is
independent of `n` (so the requested element count is not recoverable from
the handle), and — provided the backend records the requested byte size —
the handle's recorded byte size is `0`. -/
theorem create_buffer_zst_spec (d : Device σ B M) (s : σ) (n n' : Nat)
    (u : BufferUsage)
    (hsize : ((d.create_buffer_raw s 0 u).2).info.size = 0) :
    Device.create_buffer d 0 s n u
      = (let p := d.create_buffer_raw s 0 u
         (p.1, p.2.cast))
    ∧ Device.create_buffer d 0 s n u = Device.create_buffer d 0 s n' u
    ∧ ((Device.create_buffer d 0 s n u).2).raw.info.size = 0 := by
  refine ⟨by simp [Device.create_buffer], by simp [Device.create_buffer], ?_⟩
  simpa [Device.create_buffer, RawBuffer.cast] using hsize

/-- C10 witness: on the reference backend, zero-sized-type buffers created
for 5 and for 7 elements coincide and record byte size 0. -/
theorem create_buffer_zst_spec_witness :
    ((mockDevice.create_buffer_raw [] 0 BufferUsage.Static).2).info.size = 0
    ∧ Device.create_buffer mockDevice 0 [] 5 BufferUsage.Static
        = Device.create_buffer mockDevice 0 [] 7 BufferUsage.Static
    ∧ ((Device.create_buffer mockDevice 0 [] 5 BufferUsage.Static).2).raw.info.size = 0 :=
  ⟨rfl,
   (create_buffer_zst_spec mockDevice [] 5 7 BufferUsage.Static rfl).2.1,
   (create_buffer_zst_spec mockDevice [] 5 7 BufferUsage.Static rfl).2.2⟩

/-- C4 counterexample: `map_buffer_readable` is a required `Device` trait
method, not a default one — a conforming implementor (`oddDevice`) may give
it a body other than "wrap the raw token from `map_buffer_raw` with the
handle's element count as `len`" (the body `defaultMapReadable` the claim
asserts it always has). -/
theorem map_buffer_readable_not_default_cex :
    Device.map_buffer_readable oddDevice 1 [[7]]
        (RawBuffer.cast { res := 0, info := { usage := BufferUsage.Static, size := 1 } })
      ≠ defaultMapReadable oddDevice 1 [[7]]
        (RawBuffer.cast { res := 0, info := { usage := BufferUsage.Static, size := 1 } }) := by
  decide

/-- C4 (amended): `map_buffer_readable/writable/rw` are required `Device`
methods which backends implement directly; the `MapFactory` blanket
implementation supplies the wrapper constructors — each wraps a given raw
mapper token and length into the matching typed wrapper verbatim — and a
conforming backend (the reference one) implements the three mapping entry
points exactly as the spec's wrap of the raw token with the handle's element
count. -/
theorem mapFactory_wraps :
    (∀ (M : Type) (m : M) (n : Nat),
      (MapFactory.map_readable m n).raw = m ∧ (MapFactory.map_readable m n).len = n
      ∧ (MapFactory.map_writable m n).raw = m ∧ (MapFactory.map_writable m n).len = n
      ∧ (MapFactory.map_read_write m n).raw = m ∧ (MapFactory.map_read_write m n).len = n)
    ∧ (∀ (k : Nat) (s : MockState) (buf : Buffer Nat),
      Device.map_buffer_readable mockDevice k s buf = defaultMapReadable mockDevice k s buf
      ∧ Device.map_buffer_writable mockDevice k s buf = defaultMapWritable mockDevice k s buf
      ∧ Device.map_buffer_rw mockDevice k s buf = defaultMapRW mockDevice k s buf) :=
  ⟨fun _ _ _ => ⟨rfl, rfl, rfl, rfl, rfl, rfl⟩,
   fun _ _ _ => ⟨rfl, rfl, rfl⟩⟩

/-- C7: the default method `update_buffer` forwards to `update_buffer_raw`
with the untyped handle, the byte view of the data, and the byte offset
`sizeof(T) * offset_elements` — and issues exactly that one raw call. -/
theorem update_buffer_refines (d : Device σ B M) (k : Nat) (s : σ)
    (t : List (DevCall B M)) (buf : Buffer B) (data : List (List UInt8))
    (off : Nat) :
    Device.update_buffer d k s buf data off
      = d.update_buffer_raw s buf.cast (as_byte_slice data) (k * off)
    ∧ (Device.update_buffer d.traced k (s, t) buf data off).2
      = t ++ [DevCall.updateBufferRaw buf.cast (as_byte_slice data) (k * off)] :=
  ⟨rfl, rfl⟩

/-- C8: dereferencing a `ReadableMapping` yields an immutable slice of
length exactly `len`, and dereferencing an `RWMapping` immutably or mutably
yields a slice of length exactly `len`, whenever the session respects the
raw contract (`len` within the mapped region's capacity).  `ReadableMapping`
exposes no write operation (its only accessor is `deref`). -/
theorem mapping_deref_len (mem : List α) (mr : ReadableMapping M) (mrw : RWMapping M)
    (h1 : mr.len ≤ mem.length) (h2 : mrw.len ≤ mem.length) :
    (mr.deref mem).length = mr.len
    ∧ (mrw.deref mem).length = mrw.len
    ∧ (mrw.deref_mut mem).length = mrw.len := by
  refine ⟨?_, ?_, ?_⟩ <;>
    simp [ReadableMapping.deref, RWMapping.deref, RWMapping.deref_mut,
      RawMapping.to_slice, RawMapping.to_mut_slice, List.length_take,
      Nat.min_eq_left, h1, h2]

/-- C8 witness: over a three-element mapped region, sessions of length 2
dereference to slices of length 2. -/
theorem mapping_deref_len_witness :
    ((2 : Nat) ≤ 3
      ∧ (ReadableMapping.deref (M := Unit) ⟨(), 2⟩ [10, 20, 30]).length = 2)
    ∧ (RWMapping.deref (M := Unit) ⟨(), 2⟩ ([10, 20, 30] : List Nat)).length = 2
    ∧ (RWMapping.deref_mut (M := Unit) ⟨(), 2⟩ ([10, 20, 30] : List Nat)).length = 2 :=
  ⟨⟨by decide,
    (mapping_deref_len ([10, 20, 30] : List Nat) (M := Unit) ⟨(), 2⟩ ⟨(), 2⟩
      (by decide) (by decide)).1⟩,
   (mapping_deref_len ([10, 20, 30] : List Nat) (M := Unit) ⟨(), 2⟩ ⟨(), 2⟩
      (by decide) (by decide)).2.1,
   (mapping_deref_len ([10, 20, 30] : List Nat) (M := Unit) ⟨(), 2⟩ ⟨(), 2⟩
      (by decide) (by decide)).2.2⟩

/-- C6: over a slice of `n` elements whose in-memory images each have size
`k`, `as_byte_slice` produces a byte view of exactly `k * n` bytes, and the
bytes at positions `[i*k, i*k + k)` are exactly the `i`-th element's
in-memory representation (the view is the concatenation of the images, i.e.
a zero-copy view, not a conversion). -/
theorem as_byte_slice_spec (k : Nat) (s : List (List UInt8))
    (h : ∀ e ∈ s, e.length = k) :
    (as_byte_slice s).length = k * s.length
    ∧ ∀ i (hi : i < s.length),
        ((as_byte_slice s).drop (i * k)).take k = s.get ⟨i, hi⟩ := by
  refine ⟨?_, ?_⟩
  · simpa [as_byte_slice, Nat.mul_comm] using flatten_length_of_forall k s h
  · intro i hi
    exact flatten_drop_take k s h i hi

/-- C6 witness: three elements of size 2 flatten to 6 bytes, and bytes 2..4
are the second element's image. -/
theorem as_byte_slice_spec_witness :
    (∀ e ∈ ([[1, 2], [3, 4], [5, 6]] : List (List UInt8)), e.length = 2)
    ∧ (as_byte_slice [[1, 2], [3, 4], [5, 6]]).length = 2 * 3
    ∧ ((as_byte_slice ([[1, 2], [3, 4], [5, 6]] : List (List UInt8))).drop (1 * 2)).take 2
        = [3, 4] := by
  refine ⟨by decide, ?_, ?_⟩
  · exact (as_byte_slice_spec 2 [[1, 2], [3, 4], [5, 6]] (by decide)).1
  · have := (as_byte_slice_spec 2 [[1, 2], [3, 4], [5, 6]] (by decide)).2 1 (by decide)
    simpa using this

/-- C5 counterexample: the claim quantifies over every `Copy` element type,
but for a zero-sized element type (image size 0, as for Rust's `()`) the
round trip does not yield the original slice — opening the readable mapping
fails fatally, because the handle's element count derivation divides by
`sizeof(T) = 0`. -/
theorem roundTrip_zst_cex :
    roundTrip 0 [([] : List UInt8)] ≠ some [([] : List UInt8)] := by
  decide

/-- C5 (amended to element types of positive size): on the reference
backend, `create_buffer_static(data)` followed by opening a readable mapping
over the resulting handle yields a slice equal to `data`. -/
theorem create_buffer_static_roundtrip (k : Nat) (data : List (List UInt8))
    (hk : 0 < k) (h : ∀ e ∈ data, e.length = k) :
    roundTrip k data = some data := by
  have hk' : k ≠ 0 := Nat.pos_iff_ne_zero.mp hk
  have hflat : (as_byte_slice data).length = data.length * k := by
    simpa [as_byte_slice] using flatten_length_of_forall k data h
  have hdiv : (as_byte_slice data).length / k = data.length := by
    rw [hflat, Nat.mul_div_cancel _ hk]
  have hts : to_slice_bytes k (as_byte_slice data) data.length = data := by
    apply List.ext_getElem
    · simp [to_slice_bytes]
    · intro i h1 h2
      have hi : i < data.length := h2
      have hdt := flatten_drop_take k data h i hi
      simpa [to_slice_bytes, as_byte_slice] using hdt
  simp [roundTrip, Device.create_buffer_static, mockDevice, Buffer.len,
    RawBuffer.cast, Buffer.cast, MapFactory.map_readable, hk', hdiv, hts]

/-- C5 witness: two one-byte elements survive the round trip. -/
theorem create_buffer_static_roundtrip_witness :
    ((0 : Nat) < 1 ∧ (∀ e ∈ ([[3], [4]] : List (List UInt8)), e.length = 1))
    ∧ roundTrip 1 [[3], [4]] = some [[3], [4]] :=
  ⟨⟨by decide, by decide⟩,
   create_buffer_static_roundtrip 1 [[3], [4]] (by decide) (by decide)⟩
